import Mathlib

/-!
# A shallow embedding of the `ssm-cli` tool

This file embeds the pure decision logic of the `ssm-cli` repository
(`src/ssm.py`, `src/ssmc.py`, `src/utils/ec2.py`, `src/utils/ecs/ecs.py`)
into Lean and proves properties of it.

Conventions of the embedding:
* Python strings are Lean `String`s (ASCII behaviour of `str.lower` /
  `str.strip` is modelled by `String.toLower` / `String.trim`).
* AWS responses and interactive input are parameters of the embedded
  functions; effects (SSM API calls, `sys.exit`) are reified as values
  (event lists, `Except`-style results).
* Thread scheduling in `EC2Client.send_command` is modelled by an explicit
  completion order, a list giving the order in which the per-instance
  waiter threads finish.
-/

namespace SsmCli

/-! ## Python primitives -/

/-- Python's `needle in hay` on character sequences: `true` iff `needle`
occurs contiguously inside `hay`. -/
def seqContains : List Char → List Char → Bool
  | needle, [] => needle.isEmpty
  | needle, c :: rest => needle.isPrefixOf (c :: rest) || seqContains needle rest

/-- Python's substring test `needle in hay` on strings. -/
def pyIn (needle hay : String) : Bool :=
  seqContains needle.toList hay.toList

/-- Python's `str.lower()` (ASCII model), written on the character list so
that it computes by kernel reduction. -/
def pyLower (s : String) : String := ⟨s.data.map Char.toLower⟩

/-- The whitespace characters Python's `str.strip()` removes (ASCII model). -/
def isPySpace (c : Char) : Bool :=
  c = ' ' || c = '\t' || c = '\n' || c = '\r' || c = '\x0b' || c = '\x0c'

/-- Python's `str.strip()`: drop whitespace from both ends. -/
def pyStrip (s : String) : String :=
  ⟨((s.data.dropWhile isPySpace).reverse.dropWhile isPySpace).reverse⟩

/-- The numeric value of a list of decimal digits, most significant first. -/
def digitsVal (cs : List Char) : Option Nat :=
  if cs ≠ [] ∧ cs.all Char.isDigit then
    some (cs.foldl (fun a c => a * 10 + (c.toNat - ('0').toNat)) 0)
  else none

/-- Python's `int(s)` on a decimal string: strip whitespace, optional sign,
then at least one digit (ASCII model, no underscore separators).
`none` models a raised `ValueError`. -/
def parsePyInt (s : String) : Option Int :=
  match (pyStrip s).toList with
  | [] => none
  | c :: rest =>
    if c = '-' then (digitsVal rest).map (fun n => -(n : Int))
    else if c = '+' then (digitsVal rest).map (fun n => (n : Int))
    else (digitsVal (c :: rest)).map (fun n => (n : Int))

/-- Lexicographic `≤` on character lists, as Python compares strings
(ASCII model), written structurally so that it computes by kernel
reduction. -/
def charListLe : List Char → List Char → Bool
  | [], _ => true
  | _ :: _, [] => false
  | a :: as, b :: bs =>
    if a < b then true else if b < a then false else charListLe as bs

/-- Python's `a <= b` on strings. -/
def strLe (a b : String) : Bool := charListLe a.data b.data

/-- Python's `s.split('/')[-1]`: the segment after the last `/` (the split
always ends with that segment, possibly empty). -/
def lastSegmentSlash (s : String) : String :=
  ⟨(s.data.reverse.takeWhile (fun c => c ≠ '/')).reverse⟩

/-- Python's `s.startswith(p)`. -/
def pyStartsWith (s p : String) : Bool :=
  p.data.isPrefixOf s.data

/-! ## EC2 instances and `select_instance` (src/ssm.py)

An EC2 instance record, with the fields `select_instance` actually reads:
`inst['InstanceId']` (returned), `inst['Name']` (used by the name filter),
`inst['Id']` and `inst['Name']` (printed on the single-match path), and
`inst['Tags']` (used as sort key and display name). -/

structure Instance where
  instanceId : String
  name : String
  id : String
  tags : List (String × String)
deriving DecidableEq, Repr, Inhabited

/-- The sort key of `instances.sort(key=...)` in `select_instance`
(src/ssm.py line 33): the value of the first tag whose key is `"Name"`,
defaulting to `""`. -/
def nameTag (inst : Instance) : String :=
  ((inst.tags.find? (fun kv => kv.1 = "Name")).map Prod.snd).getD ""

/-- The display name printed for an instance row (src/ssm.py lines 37-38):
the tags are turned into a dict (so the LAST `"Name"` tag wins) and looked
up with default `"N/A"`. -/
def displayTagName (inst : Instance) : String :=
  (((inst.tags.filter (fun kv => kv.1 = "Name")).getLast?).map Prod.snd).getD "N/A"

/-- The name-filter step of `select_instance` (src/ssm.py lines 19-21):
`if instance_name:` keeps all instances when the filter is `None` or the
empty string, and otherwise keeps those whose `Name` field contains the
pattern case-insensitively. -/
def filterStep (nameFilter : Option String) (instances : List Instance) : List Instance :=
  match nameFilter with
  | none => instances
  | some p =>
    if p = "" then instances
    else instances.filter (fun inst => pyIn (pyLower p) (pyLower inst.name))

/-- Spec-side predicate: the display name contains the pattern as a
case-insensitive substring. -/
def matchesPatternCI (p : String) (inst : Instance) : Bool :=
  pyIn (pyLower p) (pyLower inst.name)

/-- The sorted candidate list displayed by `select_instance` (src/ssm.py
line 33): `instances.sort(key=...)` on the `Name` tag.  Python's
`list.sort` is stable, and any stable sort by the same key computes the
same list, so the stable `insertionSort` is an exact model. -/
def sortedCandidates (instances : List Instance) : List Instance :=
  instances.insertionSort (fun a b => strLe (nameTag a) (nameTag b) = true)

/-- The enumerated rows printed by `select_instance` (src/ssm.py lines
36-38): 1-based index, instance id, display name. -/
def displayRows (sorted : List Instance) : List (Nat × String × String) :=
  sorted.enum.map (fun p => (p.1 + 1, p.2.instanceId, displayTagName p.2))

/-- The exit paths of `select_instance`; each models `sys.exit(1)`. -/
inductive SelErr
  | noInstances
  | invalidSelection
  | invalidInput
deriving DecidableEq, Repr

/-- `select_instance` (src/ssm.py lines 8-50), given the instances returned
by `get_all_instances`, the optional name filter and the single line the
user would type at the prompt.  Returns the number of times `input()` is
called together with the selected instance id or the exit taken. -/
def select_instance (instances : List Instance) (nameFilter : Option String)
    (inputLine : String) : Nat × Except SelErr String :=
  let filtered := filterStep nameFilter instances
  match filtered with
  | [] => (0, .error .noInstances)
  | [inst] => (0, .ok inst.instanceId)
  | _ :: _ :: _ =>
    let sorted := sortedCandidates filtered
    (1, match parsePyInt (pyStrip inputLine) with
        | none => .error .invalidInput
        | some k =>
          let choice : Int := k - 1
          if 0 ≤ choice ∧ choice < (sorted.length : Int) then
            .ok (sorted.getD choice.toNat default).instanceId
          else .error .invalidSelection)

/-! ## `EC2Client.send_command` (src/utils/ec2.py lines 181-253)

The SSM effects of a dispatch are reified as events.  `sendCmd` is the
provider `ssm.send_command` call, `promptConfirm` the `input()` asking
"Do you want to proceed?", `poll` one `wait_for_command` waiter call for an
instance, and `getInvocation` one `ssm.get_command_invocation` call. -/

inductive Ev
  | sendCmd (ids : List String) (cmd : String)
  | promptConfirm
  | poll (id : String)
  | getInvocation (id : String)
deriving DecidableEq, Repr

/-- How `send_command` ends: `exitAborted` is the `sys.exit(1)` taken when
the operator declines the confirmation; `crashed` is the uncaught
`RuntimeError` raised by `wait_for_command` escaping `send_command` (it is
not a `botocore ClientError`, the only exception the function catches);
`report` is the list of `(instance_id, output)` pairs printed at the end. -/
inductive SendResult
  | exitAborted
  | crashed
  | report (entries : List (String × String))
deriving DecidableEq, Repr

/-- `true` exactly on `SendResult.report`. -/
def SendResult.isReport : SendResult → Bool
  | .report _ => true
  | _ => false

/-- The environment a `send_command` run interacts with: the operator's
reply to the confirmation prompt, how many waiter attempts each instance
needs before the command is finished there, each instance's (stripped)
standard output, and the order in which the per-instance waiter threads
complete. -/
structure SendEnv where
  answer : String
  attemptsNeeded : String → Nat
  outputOf : String → String
  completion : List String

/-- `WaiterConfig={"Delay": 5, "MaxAttempts": 10}` in `wait_for_command`
(src/utils/ec2.py line 266). -/
def maxWaiterAttempts : Nat := 10

/-- `EC2Client.wait_for_command` (src/utils/ec2.py lines 255-269): `true`
if the waiter sees the command finish within its 10 bounded attempts,
`false` if it raises `WaiterError`, which the method converts to a
`RuntimeError`. -/
def wait_for_command (env : SendEnv) (instanceId : String) : Bool :=
  env.attemptsNeeded instanceId ≤ maxWaiterAttempts

/-- The SSM events of the worker threads, in completion order: each
`process_one` (src/utils/ec2.py lines 216-235) waits for its instance and,
when the waiter succeeds, retrieves the invocation output.  A timed-out
instance raises inside `wait_for_command`, so its thread never calls
`get_command_invocation`. -/
def workerEvents (env : SendEnv) : List Ev :=
  env.completion.flatMap (fun i =>
    if wait_for_command env i then [.poll i, .getInvocation i] else [.poll i])

/-- `output_results` as built by the worker threads (src/utils/ec2.py lines
207, 234-235): each successful `process_one` appends its
`(instance_id, output)` pair under the lock, so pairs accumulate in
completion order; a timed-out thread raises before appending. -/
def runWaiters (env : SendEnv) : List (String × String) :=
  (env.completion.filter (fun i => wait_for_command env i)).foldl
    (fun acc i => acc ++ [(i, env.outputOf i)]) []

/-- `EC2Client.send_command` (src/utils/ec2.py lines 181-253).  The
provider `ssm.send_command` call is issued first; only then is the
operator prompted.  Declining (any answer whose lowercase form is not
`"y"`) exits.  Otherwise the worker threads run; if any waiter times out,
`future.result()` re-raises its `RuntimeError` in the `as_completed` loop
and the error escapes `send_command` before anything is reported
(`crashed`).  Otherwise the collected pairs are printed in the order they
were appended.  (The code would also crash on an empty `instance_ids`
list — `ThreadPoolExecutor(max_workers=0)` — but `main` guarantees the
list is non-empty.) -/
def send_command (ids : List String) (cmd : String) (env : SendEnv) :
    List Ev × SendResult :=
  let pre : List Ev := [.sendCmd ids cmd, .promptConfirm]
  if pyLower env.answer ≠ "y" then (pre, .exitAborted)
  else
    let evs := pre ++ workerEvents env
    if env.completion.any (fun i => ¬ wait_for_command env i) then (evs, .crashed)
    else (evs, .report (runWaiters env))

/-! ## Target resolution and the `send-command` branch of `main`
(src/ssm.py lines 71-90) -/

/-- The resolution loop of `main`'s `send-command` branch: a selector
starting with `"i-"` is kept verbatim, any other selector is resolved via
`get_instance_id_by_name` (abstracted as `byName`); an unresolvable name
causes `sys.exit(1)` before any dispatch. -/
def resolveTargets (selectors : List String) (byName : String → Option String) :
    Except Unit (List String) :=
  match selectors with
  | [] => .ok []
  | s :: rest =>
    if pyStartsWith s "i-" then
      (resolveTargets rest byName).map (fun ids => s :: ids)
    else
      match byName s with
      | some instId => (resolveTargets rest byName).map (fun ids => instId :: ids)
      | none => .error ()

/-- `main`'s `send-command` branch (src/ssm.py lines 72-90): resolve every
selector, then call `EC2Client.send_command` on the collected ids.  When
resolution fails the program exits before `send_command` is entered, so no
SSM event at all is produced (`none` result, empty trace). -/
def mainSendCommand (selectors : List String) (byName : String → Option String)
    (cmd : String) (env : SendEnv) : List Ev × Option SendResult :=
  match resolveTargets selectors byName with
  | .error _ => ([], none)
  | .ok ids =>
    let r := send_command ids cmd env
    (r.1, some r.2)

/-! ## The single-target arity guard (src/ssm.py lines 96, 120, 155)

The guards of the `ssh`, `port-forward` and `port-forward-remote` branches
evaluate the Python expression `args.instances > 1`, a comparison between a
`list[str]` and an `int`.  We embed the fragment of Python 3 comparison
semantics these guards touch. -/

/-- A Python 3 `TypeError` raised by an unsupported comparison. -/
inductive PyErr
  | typeError
deriving DecidableEq, Repr

/-- The fragment of Python values the arity guards compare. -/
inductive PyVal
  | pyInt (n : Int)
  | pyStr (s : String)
  | pyStrList (xs : List String)
deriving DecidableEq, Repr

/-- Lexicographic `<` on lists of strings, as Python compares two lists. -/
def strListLt : List String → List String → Bool
  | [], [] => false
  | [], _ :: _ => true
  | _ :: _, [] => false
  | a :: as, b :: bs =>
    if a < b then true else if b < a then false else strListLt as bs

/-- Python 3's `x > y` on the embedded fragment: numbers compare with
numbers, strings with strings, lists with lists; any mixed comparison such
as `list > int` raises `TypeError`. -/
def pyGt : PyVal → PyVal → Except PyErr Bool
  | .pyInt a, .pyInt b => .ok (decide (b < a))
  | .pyStr a, .pyStr b => .ok (decide (b < a))
  | .pyStrList a, .pyStrList b => .ok (strListLt b a)
  | _, _ => .error .typeError

/-- The guard `if args.instances > 1:` of the `ssh`, `port-forward` and
`port-forward-remote` branches (src/ssm.py lines 96, 120, 155), where
`args.instances` is the supplied list of instance selectors. -/
def singleTargetArityGuard (instances : List String) : Except PyErr Bool :=
  pyGt (.pyStrList instances) (.pyInt 1)

/-- The guard `if len(args.instances) > 1:` of the `scp-to` / `scp-from`
branches (src/ssm.py lines 188, 213), for contrast: it compares two ints. -/
def scpArityGuard (instances : List String) : Except PyErr Bool :=
  pyGt (.pyInt instances.length) (.pyInt 1)

/-! ## ECS tasks (src/utils/ecs/ecs.py, src/ssmc.py) -/

/-- A Python dict with string keys and values, as an association list;
Python dict literals with distinct keys are direct association lists. -/
abbrev PyDict := List (String × String)

/-- Python `d[k]`: `none` models a raised `KeyError`. -/
def dictGet? (d : PyDict) (k : String) : Option String :=
  (d.find? (fun kv => kv.1 = k)).map Prod.snd

/-- One container of a described ECS task, with the fields
`get_tasks_by_cluster` reads: `container['name']` and the optional
`container['runtimeId']`. -/
structure Container where
  name : String
  runtimeId : Option String
deriving DecidableEq, Repr

/-- One entry of `describe_tasks(...)['tasks']`, with the fields
`get_tasks_by_cluster` reads (`createdAt` is kept abstract as a string). -/
structure TaskDetail where
  taskArn : String
  createdAt : String
  containers : List Container
deriving DecidableEq, Repr

/-- One formatted task dict as appended by `get_tasks_by_cluster`
(src/utils/ecs/ecs.py lines 158-163): exactly the keys `"Name"`, `"Id"`,
`"Time"`, `"ContainerId"`. -/
def formattedTask (name taskId time containerId : String) : PyDict :=
  [("Name", name), ("Id", taskId), ("Time", time), ("ContainerId", containerId)]

/-- The formatting loop of `ECSClient.get_tasks_by_cluster`
(src/utils/ecs/ecs.py lines 150-164): one dict per container that has a
`runtimeId`, with `Id` taken from the last `/`-segment of the task ARN. -/
def get_tasks_by_cluster (details : List TaskDetail) : List PyDict :=
  details.flatMap (fun t =>
    t.containers.filterMap (fun c =>
      c.runtimeId.map (fun rid =>
        formattedTask c.name (lastSegmentSlash t.taskArn) t.createdAt rid)))

/-- Exit paths of `multichoice` (src/ssmc.py lines 67-119): `empty` is the
`sys.exit(1)` on an empty item list, `keyError` the uncaught Python
`KeyError` raised by `item['display']`, and `eof` the uncaught `EOFError`
when the input stream is exhausted. -/
inductive ChoiceErr
  | empty
  | keyError
  | eof
deriving DecidableEq, Repr

/-- The `while True` selection loop of `multichoice` (src/ssmc.py lines
101-119), over the remaining input lines: blank input and non-numeric
input re-prompt, as does an out-of-range number; an in-range number
returns the corresponding 1-based item. -/
def chooseLoop (sorted : List PyDict) : List String → Except ChoiceErr PyDict
  | [] => .error .eof
  | line :: rest =>
    let s := pyStrip line
    if s = "" then chooseLoop sorted rest
    else
      match parsePyInt s with
      | none => chooseLoop sorted rest
      | some k =>
        if 1 ≤ k ∧ k ≤ (sorted.length : Int) then
          .ok (sorted.getD (k - 1).toNat default)
        else chooseLoop sorted rest

/-- `multichoice(list_of_items, "task")` (src/ssmc.py lines 67-119) on the
task dicts from `get_tasks_by_cluster`.  The single-item branch reads
`list_of_items[0]['display']` before returning; the multi-item branch
sorts with `key=lambda x: x['display']`, which evaluates the key of the
elements first.  A missing `'display'` key raises `KeyError`, which no
handler in the function catches. -/
def multichoiceTask (tasks : List PyDict) (inputs : List String) :
    Except ChoiceErr PyDict :=
  match tasks with
  | [] => .error .empty
  | [t] =>
    match dictGet? t "display" with
    | none => .error .keyError
    | some _ => .ok t
  | _ :: _ :: _ =>
    match tasks.mapM (fun t => dictGet? t "display") with
    | none => .error .keyError
    | some _ =>
      let sorted := tasks.insertionSort (fun a b =>
        strLe ((dictGet? a "display").getD "") ((dictGet? b "display").getD "") = true)
      chooseLoop sorted inputs

/-! ## Helper lemmas -/

/-- `seqContains` always holds for the empty needle, as in Python where
`"" in s` is `True`. -/
theorem seqContains_nil (hay : List Char) : seqContains [] hay = true := by
  cases hay with
  | nil => rfl
  | cons c rest => simp [seqContains, List.isPrefixOf]

/-- Searching with an empty pattern keeps everything, as `"" in s`. -/
theorem pyIn_nil (hay : String) : pyIn "" hay = true :=
  seqContains_nil hay.data

/-- `charListLe` is total. -/
theorem charListLe_total (a : List Char) :
    ∀ b, charListLe a b = true ∨ charListLe b a = true := by
  induction a with
  | nil => intro b; left; rfl
  | cons x xs ih =>
    intro b
    cases b with
    | nil => right; rfl
    | cons y ys =>
      by_cases hxy : x < y
      · left; simp [charListLe, hxy]
      · by_cases hyx : y < x
        · right; simp [charListLe, hyx]
        · rcases ih ys with h | h
          · left; simp [charListLe, hxy, hyx, h]
          · right; simp [charListLe, hyx, hxy, h]

/-- `charListLe` is transitive. -/
theorem charListLe_trans (a : List Char) :
    ∀ b c, charListLe a b = true → charListLe b c = true →
      charListLe a c = true := by
  induction a with
  | nil => intro b c _ _; rfl
  | cons x xs ih =>
    intro b c h1 h2
    cases b with
    | nil => simp [charListLe] at h1
    | cons y ys =>
      cases c with
      | nil => simp [charListLe] at h2
      | cons z zs =>
        by_cases hxy : x < y
        · by_cases hyz : y < z
          · simp [charListLe, lt_trans hxy hyz]
          · by_cases hzy : z < y
            · simp [charListLe, hyz, hzy] at h2
            · have hyz' : y = z := le_antisymm (not_lt.mp hzy) (not_lt.mp hyz)
              subst hyz'
              simp [charListLe, hxy]
        · by_cases hyx : y < x
          · simp [charListLe, hxy, hyx] at h1
          · have hxy' : x = y := le_antisymm (not_lt.mp hyx) (not_lt.mp hxy)
            subst hxy'
            simp only [charListLe, hxy, hyx, if_false] at h1
            by_cases hxz : x < z
            · simp [charListLe, hxz]
            · by_cases hzx : z < x
              · simp [charListLe, hxz, hzx] at h2
              · simp only [charListLe, hxz, hzx, if_false] at h2 ⊢
                exact ih ys zs h1 h2

/-- Appending one mapped element at a time is `map`. -/
theorem foldl_append_singleton {α β : Type} (f : α → β) :
    ∀ (l : List α) (acc : List β),
      l.foldl (fun a i => a ++ [f i]) acc = acc ++ l.map f := by
  intro l
  induction l with
  | nil => intro acc; simp
  | cons x xs ih =>
    intro acc
    simp [List.foldl_cons, ih, List.append_assoc]

/-- Projecting the first component out of id-output pairs recovers the id
list. -/
theorem map_fst_pair {α β : Type} (f : α → β) (l : List α) :
    (l.map (fun i => (i, f i))).map Prod.fst = l := by
  induction l with
  | nil => rfl
  | cons x xs ih => simp [ih]

/-- `output_results` of a run without timeouts holds one pair per instance,
in completion order. -/
theorem runWaiters_eq_map (env : SendEnv)
    (h : ∀ i ∈ env.completion, env.attemptsNeeded i ≤ maxWaiterAttempts) :
    runWaiters env = env.completion.map (fun i => (i, env.outputOf i)) := by
  unfold runWaiters
  rw [foldl_append_singleton]
  rw [List.filter_eq_self.mpr]
  · simp
  · intro i hi
    simpa [wait_for_command] using h i hi

/-- `send_command` of a confirmed run with no waiter timeout reports the
collected pairs, in completion order. -/
theorem send_command_report (ids : List String) (cmd : String) (env : SendEnv)
    (hy : pyLower env.answer = "y")
    (ht : ∀ i ∈ env.completion, env.attemptsNeeded i ≤ maxWaiterAttempts) :
    (send_command ids cmd env).2 =
      SendResult.report (env.completion.map (fun i => (i, env.outputOf i))) := by
  have hno : ¬ ∃ x ∈ env.completion, wait_for_command env x = false := by
    rintro ⟨x, hx, hfalse⟩
    have hx' := ht x hx
    simp [wait_for_command, hx'] at hfalse
  unfold send_command
  simp [hy, hno, runWaiters_eq_map env ht]

/-- A resolution batch containing one unresolvable plain-name selector
fails as a whole. -/
theorem resolveTargets_error (selectors : List String)
    (byName : String → Option String)
    (h : ∃ s ∈ selectors, pyStartsWith s "i-" = false ∧ byName s = none) :
    resolveTargets selectors byName = .error () := by
  induction selectors with
  | nil => simp at h
  | cons s rest ih =>
    obtain ⟨t, ht, hpre, hnone⟩ := h
    rcases List.mem_cons.mp ht with rfl | htrest
    · unfold resolveTargets
      simp [hpre, hnone]
    · unfold resolveTargets
      have hrest : resolveTargets rest byName = .error () :=
        ih ⟨t, htrest, hpre, hnone⟩
      by_cases hs : pyStartsWith s "i-" = true
      · simp [hs, hrest, Except.map]
      · simp only [Bool.not_eq_true] at hs
        simp only [hs, Bool.false_eq_true, if_false]
        cases hbn : byName s with
        | none => rfl
        | some v => simp [hrest, Except.map]

/-! ## C1 — Report ordering -/

/-- C1 (counterexample): with two targets dispatched as
`["i-a", "i-b"]` whose waiters complete in the order `["i-b", "i-a"]`, the
final report lists the outputs in completion order `["i-b", "i-a"]`, not
in the submission order `["i-a", "i-b"]` the claim requires. -/
theorem C1_counterexample_completion_order :
    (["i-b", "i-a"] : List String).Perm ["i-a", "i-b"] ∧
    (send_command ["i-a", "i-b"] "uptime"
        ⟨"y", fun _ => 1, fun _ => "ok", ["i-b", "i-a"]⟩).2 =
      SendResult.report [("i-b", "ok"), ("i-a", "ok")] ∧
    ([("i-b", "ok"), ("i-a", "ok")].map Prod.fst ≠ (["i-a", "i-b"] : List String)) :=
  ⟨by decide, by rfl, by decide⟩

/-- C1 (amended): for every confirmed dispatch in which no waiter times
out, the final report lists the per-target outputs in the order the
per-target waiter threads complete — not in submission order. -/
theorem C1_report_in_completion_order (ids : List String) (cmd : String)
    (env : SendEnv) (hy : pyLower env.answer = "y")
    (ht : ∀ i ∈ env.completion, env.attemptsNeeded i ≤ maxWaiterAttempts) :
    ∃ r, (send_command ids cmd env).2 = SendResult.report r ∧
      r.map Prod.fst = env.completion := by
  exact ⟨env.completion.map (fun i => (i, env.outputOf i)),
    send_command_report ids cmd env hy ht, map_fst_pair _ _⟩

/-- C1 (witness): the amended theorem at the counterexample's input. -/
theorem C1_witness :
    ∃ r, (send_command ["i-a", "i-b"] "uptime"
        ⟨"y", fun _ => 1, fun _ => "ok", ["i-b", "i-a"]⟩).2 =
      SendResult.report r ∧ r.map Prod.fst = ["i-b", "i-a"] :=
  C1_report_in_completion_order ["i-a", "i-b"] "uptime"
    ⟨"y", fun _ => 1, fun _ => "ok", ["i-b", "i-a"]⟩ (by rfl) (by decide)

/-! ## C2 — Confirmation versus dispatch -/

/-- C2: the provider `ssm.send_command` call is issued before the
proceed/abort confirmation is read.  Declining ("n") still leaves exactly
the trace `[sendCmd, promptConfirm]`: one remote `sendCommand` call was
already made (contradicting the claimed "zero calls"), and the run exits
before any job poll. -/
theorem C2_sendCmd_precedes_confirmation :
    send_command ["i-0a1b2c3d4e5f6a7b8"] "uptime"
        ⟨"n", fun _ => 1, fun _ => "", ["i-0a1b2c3d4e5f6a7b8"]⟩ =
      ([Ev.sendCmd ["i-0a1b2c3d4e5f6a7b8"] "uptime", Ev.promptConfirm],
        SendResult.exitAborted) ∧
    [Ev.sendCmd ["i-0a1b2c3d4e5f6a7b8"] "uptime", Ev.promptConfirm].count
        (Ev.sendCmd ["i-0a1b2c3d4e5f6a7b8"] "uptime") = 1 :=
  ⟨by rfl, by decide⟩

/-! ## C3 — Timeout isolation -/

/-- C3 (counterexample): two targets, the first one's waiter exhausts its
10 attempts (it needs 11) while the second succeeds; `send_command` ends
in the escaped `RuntimeError` (`crashed`) and produces no report at all —
the sibling target's result is suppressed, contradicting the claim. -/
theorem C3_counterexample_timeout_suppresses_siblings :
    (send_command ["i-a", "i-b"] "uptime"
        ⟨"y", fun i => if i = "i-a" then 11 else 1, fun _ => "ok",
          ["i-a", "i-b"]⟩).2 = SendResult.crashed ∧
    SendResult.isReport (send_command ["i-a", "i-b"] "uptime"
        ⟨"y", fun i => if i = "i-a" then 11 else 1, fun _ => "ok",
          ["i-a", "i-b"]⟩).2 = false :=
  ⟨by rfl, by rfl⟩

/-- C3 (amended): whenever any target's waiter exhausts its bounded poll
attempts, the `RuntimeError` raised in `wait_for_command` escapes
`send_command` (`crashed`) and no per-target report is printed for anyone;
the sibling waiters still run to completion (their output retrievals
appear in the event trace), but their results are discarded. -/
theorem C3_timeout_crashes_whole_report (ids : List String) (cmd : String)
    (env : SendEnv) (hy : pyLower env.answer = "y")
    (h : ∃ i ∈ env.completion, maxWaiterAttempts < env.attemptsNeeded i) :
    (send_command ids cmd env).2 = SendResult.crashed ∧
    ∀ j ∈ env.completion, env.attemptsNeeded j ≤ maxWaiterAttempts →
      Ev.getInvocation j ∈ (send_command ids cmd env).1 := by
  have hex : ∃ x ∈ env.completion, wait_for_command env x = false := by
    obtain ⟨i, hi, hgt⟩ := h
    refine ⟨i, hi, ?_⟩
    have hn : ¬ env.attemptsNeeded i ≤ maxWaiterAttempts := Nat.not_le.mpr hgt
    simpa [wait_for_command] using hn
  constructor
  · unfold send_command
    simp [hy, hex]
  · intro j hj hle
    have hmem : Ev.getInvocation j ∈ workerEvents env := by
      unfold workerEvents
      rw [List.mem_flatMap]
      exact ⟨j, hj, by simp [wait_for_command, hle]⟩
    unfold send_command
    simp [hy, hex, hmem]

/-- C3 (witness): the amended theorem at the counterexample's input. -/
theorem C3_witness :
    (send_command ["i-a", "i-b"] "uptime"
        ⟨"y", fun i => if i = "i-a" then 11 else 1, fun _ => "ok",
          ["i-a", "i-b"]⟩).2 = SendResult.crashed ∧
    ∀ j ∈ (["i-a", "i-b"] : List String),
      (if j = "i-a" then 11 else 1) ≤ maxWaiterAttempts →
      Ev.getInvocation j ∈ (send_command ["i-a", "i-b"] "uptime"
        ⟨"y", fun i => if i = "i-a" then 11 else 1, fun _ => "ok",
          ["i-a", "i-b"]⟩).1 :=
  C3_timeout_crashes_whole_report ["i-a", "i-b"] "uptime"
    ⟨"y", fun i => if i = "i-a" then 11 else 1, fun _ => "ok", ["i-a", "i-b"]⟩
    (by rfl) ⟨"i-a", by decide, by decide⟩

/-! ## C4 — Report target set -/

/-- C4 (counterexample): the selector list `["i-a", "i-a"]` (the same
instance id twice) resolves to `["i-a", "i-a"]` and the final report holds
two entries for `i-a` — resolution and aggregation do not deduplicate, so
the "no duplicate entries" part of the claim fails. -/
theorem C4_counterexample_duplicate_selector :
    mainSendCommand ["i-a", "i-a"] (fun _ => none) "uptime"
        ⟨"y", fun _ => 1, fun _ => "ok", ["i-a", "i-a"]⟩ =
      ([Ev.sendCmd ["i-a", "i-a"] "uptime", Ev.promptConfirm,
        Ev.poll "i-a", Ev.getInvocation "i-a",
        Ev.poll "i-a", Ev.getInvocation "i-a"],
        some (SendResult.report [("i-a", "ok"), ("i-a", "ok")])) ∧
    ¬ ([("i-a", "ok"), ("i-a", "ok")].map Prod.fst).Nodup :=
  ⟨by rfl, by decide⟩

/-- C4 (amended): for every resolved batch that is confirmed and suffers
no waiter timeout, the multiset of target ids in the final report is a
permutation of the ids submitted to `send_command` — so as a set nothing
is dropped and nothing is added — but duplicate submitted ids yield
duplicate report entries. -/
theorem C4_report_ids_match_submitted (selectors : List String)
    (byName : String → Option String) (cmd : String) (env : SendEnv)
    (ids : List String) (hres : resolveTargets selectors byName = .ok ids)
    (hy : pyLower env.answer = "y")
    (ht : ∀ i ∈ env.completion, env.attemptsNeeded i ≤ maxWaiterAttempts)
    (hperm : env.completion.Perm ids) :
    ∃ evs r, mainSendCommand selectors byName cmd env = (evs, some (SendResult.report r)) ∧
      (r.map Prod.fst).Perm ids ∧
      (r.map Prod.fst).toFinset = ids.toFinset := by
  have hrep := send_command_report ids cmd env hy ht
  refine ⟨(send_command ids cmd env).1,
    env.completion.map (fun i => (i, env.outputOf i)), ?_, ?_, ?_⟩
  · unfold mainSendCommand
    rw [hres]
    simp [hrep]
  · rw [map_fst_pair]
    exact hperm
  · rw [map_fst_pair]
    exact List.toFinset_eq_of_perm _ _ hperm

/-- C4 (witness): a two-selector batch (one raw id, one name) whose
waiters complete in reverse order. -/
theorem C4_witness :
    ∃ evs r, mainSendCommand ["i-a", "web"]
        (fun s => if s = "web" then some "i-b" else none) "uptime"
        ⟨"y", fun _ => 1, fun _ => "ok", ["i-b", "i-a"]⟩ =
        (evs, some (SendResult.report r)) ∧
      (r.map Prod.fst).Perm ["i-a", "i-b"] ∧
      (r.map Prod.fst).toFinset = (["i-a", "i-b"] : List String).toFinset :=
  C4_report_ids_match_submitted ["i-a", "web"]
    (fun s => if s = "web" then some "i-b" else none) "uptime"
    ⟨"y", fun _ => 1, fun _ => "ok", ["i-b", "i-a"]⟩ ["i-a", "i-b"]
    (by rfl) (by rfl) (by decide) (by decide)

/-! ## C5 — Interactive selection -/

/-- The printed row numbers are the consecutive 1-based indices. -/
theorem displayRows_indices (l : List Instance) :
    (displayRows l).map Prod.fst = List.range' 1 l.length := by
  unfold displayRows
  rw [List.map_map]
  have h1 : (Prod.fst ∘ fun p : Nat × Instance =>
      (p.1 + 1, p.2.instanceId, displayTagName p.2)) =
      (fun n : Nat => n + 1) ∘ Prod.fst := rfl
  rw [h1, ← List.map_map, List.enum_map_fst, List.range'_eq_map_range]
  simp [Nat.add_comm]

/-- C5 (counterexample): two candidates share the display name `"web"`
and are supplied with ids `"i-b"` before `"i-a"`; `select_instance`
displays them in the original (stable-sort) order — not with the tie
broken by id, which would list `"i-a"` first — and on the non-numeric
input `"abc"` it exits with an error instead of re-prompting. -/
theorem C5_counterexample_no_reprompt_and_stable_ties :
    select_instance
        [⟨"i-b", "web-b", "idb", [("Name", "web")]⟩,
         ⟨"i-a", "web-a", "ida", [("Name", "web")]⟩] none "abc" =
      (1, Except.error SelErr.invalidInput) ∧
    displayRows (sortedCandidates
        [⟨"i-b", "web-b", "idb", [("Name", "web")]⟩,
         ⟨"i-a", "web-a", "ida", [("Name", "web")]⟩]) =
      [(1, "i-b", "web"), (2, "i-a", "web")] ∧
    [(1, "i-b", "web"), (2, "i-a", "web")] ≠ [(1, "i-a", "web"), (2, "i-b", "web")] :=
  ⟨by rfl, by decide, by decide⟩

/-- C5 (amended): with two or more candidates after filtering,
`select_instance` presents a 1-based enumerated list sorted by display
name with ties kept in their original order (a stable sort on the `Name`
tag only — ids do not break ties), consumes exactly one line of input,
exits with an error on non-numeric input (it does not re-prompt), returns
the chosen candidate on an in-range number, and exits with an error on an
out-of-range number. -/
theorem C5_interactive_selection (instances : List Instance)
    (f : Option String) (input : String)
    (h2 : 2 ≤ (filterStep f instances).length) :
    (sortedCandidates (filterStep f instances)).Perm (filterStep f instances) ∧
    (sortedCandidates (filterStep f instances)).Pairwise
      (fun a b => strLe (nameTag a) (nameTag b) = true) ∧
    (displayRows (sortedCandidates (filterStep f instances))).map Prod.fst =
      List.range' 1 (sortedCandidates (filterStep f instances)).length ∧
    (select_instance instances f input).1 = 1 ∧
    (parsePyInt (pyStrip input) = none →
      (select_instance instances f input).2 = Except.error SelErr.invalidInput) ∧
    (∀ k : Int, parsePyInt (pyStrip input) = some k → 1 ≤ k →
      k ≤ (sortedCandidates (filterStep f instances)).length →
      (select_instance instances f input).2 =
        Except.ok (((sortedCandidates (filterStep f instances)).getD
          (k - 1).toNat default).instanceId)) ∧
    (∀ k : Int, parsePyInt (pyStrip input) = some k →
      (k < 1 ∨ ((sortedCandidates (filterStep f instances)).length : Int) < k) →
      (select_instance instances f input).2 = Except.error SelErr.invalidSelection) := by
  have hsorted : (sortedCandidates (filterStep f instances)).Pairwise
      (fun a b => strLe (nameTag a) (nameTag b) = true) := by
    haveI : IsTotal Instance (fun a b => strLe (nameTag a) (nameTag b) = true) :=
      ⟨fun a b => charListLe_total _ _⟩
    haveI : IsTrans Instance (fun a b => strLe (nameTag a) (nameTag b) = true) :=
      ⟨fun a b c => charListLe_trans _ _ _⟩
    exact List.sorted_insertionSort _ _
  obtain ⟨x, y, rest, hfil⟩ :
      ∃ x y rest, filterStep f instances = x :: y :: rest := by
    cases hf : filterStep f instances with
    | nil => rw [hf] at h2; simp at h2
    | cons a tl =>
      cases tl with
      | nil => rw [hf] at h2; simp at h2
      | cons b tl2 => exact ⟨a, b, tl2, rfl⟩
  refine ⟨List.perm_insertionSort _ _, hsorted, displayRows_indices _, ?_, ?_, ?_, ?_⟩
  · simp [select_instance, hfil]
  · intro hp
    simp [select_instance, hfil, hp]
  · intro k hk h1k hklen
    have hcond : 0 ≤ k - 1 ∧ k - 1 <
        ((sortedCandidates (x :: y :: rest)).length : Int) := by
      have hlen : (sortedCandidates (x :: y :: rest)).length =
          (sortedCandidates (filterStep f instances)).length := by rw [hfil]
      rw [hfil] at hklen
      omega
    simp [select_instance, hfil, hk, hcond]
  · intro k hk hout
    rw [hfil] at hout
    simp [select_instance, hfil, hk]
    omega

/-- C5 (witness): the amended theorem at a concrete pair of tied
candidates with input `"2"`. -/
theorem C5_witness :
    (select_instance
        [⟨"i-b", "web-b", "idb", [("Name", "web")]⟩,
         ⟨"i-a", "web-a", "ida", [("Name", "web")]⟩] none "2").1 = 1 :=
  (C5_interactive_selection
    [⟨"i-b", "web-b", "idb", [("Name", "web")]⟩,
     ⟨"i-a", "web-a", "ida", [("Name", "web")]⟩] none "2"
    (by decide)).2.2.2.1

/-! ## C6 — The single-target arity guard -/

/-- C6: the guard `args.instances > 1` of the `ssh` / `port-forward` /
`port-forward-remote` branches compares a `list[str]` with an `int` and
raises `TypeError` for every instance list — even a one-element or empty
one — so it is not the total length test the claim describes; the parallel
`scp` branches' `len(args.instances) > 1` evaluates correctly for
contrast. -/
theorem C6_arity_guard_raises_typeerror :
    singleTargetArityGuard ["i-0123456789abcdef0"] = Except.error PyErr.typeError ∧
    singleTargetArityGuard [] = Except.error PyErr.typeError ∧
    scpArityGuard ["i-0123456789abcdef0"] = Except.ok false :=
  ⟨rfl, rfl, rfl⟩

/-! ## C7 — Name-pattern filtering -/

/-- C7: for every candidate set `C` and pattern `p`, the filter step of
`select_instance` keeps exactly the candidates whose display name contains
`p` as a case-insensitive substring; the empty pattern (and an absent
filter) keeps all of `C`. -/
theorem C7_name_filter_is_ci_substring (C : List Instance) (p : String) :
    filterStep (some p) C = C.filter (fun inst => matchesPatternCI p inst) ∧
    filterStep (some "") C = C ∧
    filterStep none C = C := by
  refine ⟨?_, by simp [filterStep], rfl⟩
  by_cases hp : p = ""
  · subst hp
    have hall : ∀ a ∈ C, matchesPatternCI "" a = true := by
      intro a _
      have h0 : pyLower "" = "" := rfl
      unfold matchesPatternCI
      rw [h0]
      exact pyIn_nil _
    calc filterStep (some "") C = C := by simp [filterStep]
      _ = C.filter (fun inst => matchesPatternCI "" inst) :=
        (List.filter_eq_self.mpr hall).symm
  · simp [filterStep, hp, matchesPatternCI]

/-! ## C8 — Auto-selection of a unique match -/

/-- C8: when the filter leaves exactly one candidate, `select_instance`
returns that candidate's `InstanceId` immediately, consuming zero input
prompts. -/
theorem C8_single_match_auto_select (instances : List Instance)
    (f : Option String) (input : String) (inst : Instance)
    (h : filterStep f instances = [inst]) :
    select_instance instances f input = (0, Except.ok inst.instanceId) := by
  simp [select_instance, h]

/-- C8 (witness): the pattern `"web-a"` matches exactly one of two
candidates; it is returned with zero prompts. -/
theorem C8_witness :
    select_instance
        [⟨"i-b", "web-b", "idb", [("Name", "web")]⟩,
         ⟨"i-a", "web-a", "ida", [("Name", "web")]⟩]
        (some "web-a") "ignored" = (0, Except.ok "i-a") :=
  C8_single_match_auto_select _ _ _
    ⟨"i-a", "web-a", "ida", [("Name", "web")]⟩ (by decide)

/-! ## C9 — Zero matches abort before dispatch -/

/-- C9: a filter matching zero candidates makes `select_instance` exit
without selecting (and hence without dispatch), and in a `send-command`
batch one unresolvable plain-name selector makes `main` exit before
`send_command` is entered: the SSM event trace is empty — no
`sendCommand`, no polls. -/
theorem C9_no_match_fail_fast :
    (∀ (instances : List Instance) (f : Option String) (input : String),
      filterStep f instances = [] →
      select_instance instances f input = (0, Except.error SelErr.noInstances)) ∧
    (∀ (selectors : List String) (byName : String → Option String)
      (cmd : String) (env : SendEnv),
      (∃ s ∈ selectors, pyStartsWith s "i-" = false ∧ byName s = none) →
      mainSendCommand selectors byName cmd env = ([], none)) := by
  constructor
  · intro instances f input h
    simp [select_instance, h]
  · intro selectors byName cmd env h
    unfold mainSendCommand
    rw [resolveTargets_error selectors byName h]

/-- C9 (witness): the filter `"zzz"` matches nothing, and the batch
`["i-a", "web"]` with an unresolvable name `"web"` produces no SSM event. -/
theorem C9_witness :
    select_instance [⟨"i-a", "web-a", "ida", [("Name", "web")]⟩]
        (some "zzz") "1" = (0, Except.error SelErr.noInstances) ∧
    mainSendCommand ["i-a", "web"] (fun _ => none) "uptime"
        ⟨"y", fun _ => 1, fun _ => "", []⟩ = ([], none) :=
  ⟨C9_no_match_fail_fast.1 _ _ _ (by decide),
   C9_no_match_fail_fast.2 _ _ _ _ ⟨"web", by decide, by decide, rfl⟩⟩

/-! ## C10 — ECS task selection -/

/-- No task dict built by `get_tasks_by_cluster` has a `'display'` key. -/
theorem get_tasks_display_none (details : List TaskDetail) :
    ∀ t ∈ get_tasks_by_cluster details, dictGet? t "display" = none := by
  intro t ht
  simp only [get_tasks_by_cluster, List.mem_flatMap, List.mem_filterMap,
    Option.map_eq_some'] at ht
  obtain ⟨td, _, c, _, rid, _, hform⟩ := ht
  rw [← hform]
  rfl

/-- C10: for every non-empty task list produced by
`get_tasks_by_cluster` — whose dicts carry exactly the keys `Name`, `Id`,
`Time`, `ContainerId` — `multichoice(tasks, "task")` reads `'display'`
and raises `KeyError` before returning, for any input the user could
type: ECS task selection never returns a task. -/
theorem C10_task_selection_raises_keyerror (details : List TaskDetail)
    (inputs : List String) (h : get_tasks_by_cluster details ≠ []) :
    multichoiceTask (get_tasks_by_cluster details) inputs =
      Except.error ChoiceErr.keyError := by
  have hnone := get_tasks_display_none details
  cases htl : get_tasks_by_cluster details with
  | nil => exact absurd htl h
  | cons t rest =>
    have ht0 : dictGet? t "display" = none :=
      hnone t (htl ▸ List.mem_cons_self t rest)
    cases rest with
    | nil => simp [multichoiceTask, ht0]
    | cons t2 rest2 => simp [multichoiceTask, List.mapM.loop, ht0]

/-- C10 (witness): one described task with one running container. -/
theorem C10_witness :
    multichoiceTask (get_tasks_by_cluster
        [⟨"arn:aws:ecs:eu-west-1:123:task/mycluster/0abc", "2024-05-01",
          [⟨"web", some "rtid123"⟩]⟩]) ["1"] =
      Except.error ChoiceErr.keyError :=
  C10_task_selection_raises_keyerror _ _ (by decide)

end SsmCli
